import Mathlib

/-!
Shallow embedding of the buffered file-writer FFI layer (`src/lib.rs`) and
verification of its specification claims.

Modelling conventions:
* raw pointers crossing the C boundary become `Option` values (`none` = null);
* the `BufWriter<File>` is a capacity, the bytes currently buffered, and the
  bytes already written through to the file;
* every fallible OS interaction is driven by an explicit oracle argument
  (`ioOk : Bool` for a write or flush, `openFn` for the one open call), so a
  theorem can quantify over success and failure of the storage layer;
* functions return their status code together with the state they leave
  behind.
-/

/-- Status codes returned across the C FFI boundary, mirroring the
`FileWriterError` enum of `src/lib.rs` (`repr(C)`, ordinals 0..7). -/
inductive FileWriterError where
  | Success
  | FileOpenError
  | FileWriteError
  | FileCloseError
  | InvalidHandle
  | InvalidPath
  | InvalidData
  | IoError
deriving DecidableEq

/-- Kinds of OS-level I/O failure: the two cases of `std::io::ErrorKind` that
the source distinguishes by name, plus representative kinds that fall into
its catch-all arm. -/
inductive IoErrorKind where
  | notFound
  | permissionDenied
  | alreadyExists
  | interrupted
  | invalidInput
  | timedOut
  | unexpectedEof
  | outOfMemory
  | otherKind
deriving DecidableEq

/-- Embedding of the `impl From<std::io::Error> for FileWriterError` block of
`src/lib.rs`: permission-denied and not-found map to `FileOpenError`, every
other kind to the catch-all `IoError`. -/
def errorFromIoKind : IoErrorKind → FileWriterError
  | .permissionDenied => .FileOpenError
  | .notFound => .FileOpenError
  | _ => .IoError

/-- File open mode, mirroring the `FileWriterMode` enum of `src/lib.rs`. -/
inductive FileWriterMode where
  | Append
  | Write
deriving DecidableEq

/-- Default capacity of Rust's `std::io::BufWriter::new` (8 KiB), the
constructor `file_writer_new` uses. -/
def bufWriterDefaultCapacity : Nat := 8192

/-- Model of `std::io::BufWriter<File>`: a capacity, the bytes currently
held in the in-memory buffer, and the bytes already written through to the
inner file, in order. -/
structure BufWriter where
  capacity : Nat
  buf : List Nat
  inner : List Nat
deriving DecidableEq

/-- Model of `BufWriter::new(file)`: default capacity, empty buffer. The
argument is the content the inner file starts with. -/
def BufWriter.new (file : List Nat) : BufWriter :=
  ⟨bufWriterDefaultCapacity, [], file⟩

/-- Model of `BufWriter::with_capacity(c, file)`. -/
def BufWriter.withCapacity (c : Nat) (file : List Nat) : BufWriter :=
  ⟨c, [], file⟩

/-- Every byte the writer has accepted, in order: bytes already written
through to the file followed by the bytes still buffered. -/
def BufWriter.allBytes (w : BufWriter) : List Nat := w.inner ++ w.buf

/-- Model of `BufWriter::flush_buf`: writes the buffered bytes through to
the inner file. `ioOk` is the oracle for the underlying OS write; on failure
the buffer is retained (std behavior) and the error carries the unchanged
writer. -/
def BufWriter.flushBuf (w : BufWriter) (ioOk : Bool) : Except BufWriter BufWriter :=
  if w.buf = [] then .ok w
  else if ioOk then .ok ⟨w.capacity, [], w.inner ++ w.buf⟩
  else .error w

/-- Model of `BufWriter::write_all`: if the incoming bytes do not fit behind
the current buffer contents the buffer is flushed first; a payload at least
as long as the capacity is then written directly to the inner file, a
shorter one is appended to the buffer. The error carries the writer state
the failed call leaves behind. -/
def BufWriter.writeAll (w : BufWriter) (data : List Nat) (ioOk : Bool) :
    Except BufWriter BufWriter :=
  if w.capacity < w.buf.length + data.length then
    match w.flushBuf ioOk with
    | .error we => .error we
    | .ok w' =>
      if w'.capacity ≤ data.length then
        if ioOk then .ok ⟨w'.capacity, w'.buf, w'.inner ++ data⟩ else .error w'
      else .ok ⟨w'.capacity, w'.buf ++ data, w'.inner⟩
  else .ok ⟨w.capacity, w.buf ++ data, w.inner⟩

/-- Model of `BufWriter::into_inner`: flushes the buffer and hands back the
inner file; on flush failure the error (which in Rust carries the writer,
file included) is reported instead. -/
def BufWriter.intoInner (w : BufWriter) (ioOk : Bool) : Except BufWriter (List Nat) :=
  match w.flushBuf ioOk with
  | .ok w' => .ok w'.inner
  | .error we => .error we

/-- The opaque handle struct of `src/lib.rs`: `writer: Option<BufWriter<File>>`. -/
structure FileWriter where
  writer : Option BufWriter
deriving DecidableEq

/-- Whether a handle pointer still holds a live stream resource. -/
def hasStream : Option FileWriter → Bool
  | some fw => fw.writer.isSome
  | none => false

/-- Embedding of the `get_writer_mut` helper: a null handle pointer
(modelled as `none`) or an empty `writer` field yields `InvalidHandle`. -/
def get_writer_mut : Option FileWriter → Except FileWriterError BufWriter
  | none => .error .InvalidHandle
  | some fw =>
    match fw.writer with
    | none => .error .InvalidHandle
    | some w => .ok w

/-- Minimal filesystem state: the set of existing directories and the files
with their contents, both keyed by path bytes. -/
structure Fs where
  dirs : List (List Nat)
  files : List (List Nat × List Nat)
deriving DecidableEq

/-- Splits a byte list on a separator byte. -/
def splitOnByte (sep : Nat) (l : List Nat) : List (List Nat) :=
  l.foldr
    (fun b acc =>
      match acc with
      | [] => [[b]]
      | cur :: rest => if b = sep then [] :: cur :: rest else (b :: cur) :: rest)
    [[]]

/-- Parent directory of a path: the bytes before the final slash (byte 47);
the empty result stands for the current directory. -/
def parentOf (p : List Nat) : List Nat :=
  List.intercalate [47] (splitOnByte 47 p).dropLast

/-- Creates or replaces a file entry. -/
def Fs.setFile (fs : Fs) (p content : List Nat) : Fs :=
  ⟨fs.dirs, (p, content) :: fs.files.filter (fun e => !(e.1 == p))⟩

/-- POSIX-style semantics of the single `OpenOptions::open` call that
`file_writer_new` performs: the open fails with not-found when the path is
empty or its parent directory does not exist; `Write` mode truncates or
creates the file, `Append` mode creates it if missing and keeps existing
content. Returns the updated filesystem and the opened file's content. -/
def osOpen (fs : Fs) (p : List Nat) (mode : FileWriterMode) :
    Except IoErrorKind (Fs × List Nat) :=
  if p = [] then .error .notFound
  else if fs.dirs.contains (parentOf p) then
    match mode with
    | .Write => .ok (fs.setFile p [], [])
    | .Append =>
      let content := (fs.files.lookup p).getD []
      .ok (fs.setFile p content, content)
  else .error .notFound

/-- Checks that a continuation byte has the form `10xxxxxx`. -/
def utf8Cont (b : Nat) : Bool := 0x80 ≤ b && b ≤ 0xBF

/-- Validity of a byte list as UTF-8 (RFC 3629 table), modelling the
`CStr::to_str` check in `file_writer_new`. -/
def utf8Valid : List Nat → Bool
  | [] => true
  | b :: rest =>
    if b ≤ 0x7F then utf8Valid rest
    else if 0xC2 ≤ b && b ≤ 0xDF then
      match rest with
      | c1 :: r => utf8Cont c1 && utf8Valid r
      | [] => false
    else if b = 0xE0 then
      match rest with
      | c1 :: c2 :: r => (0xA0 ≤ c1 && c1 ≤ 0xBF) && utf8Cont c2 && utf8Valid r
      | _ => false
    else if (0xE1 ≤ b && b ≤ 0xEC) || b = 0xEE || b = 0xEF then
      match rest with
      | c1 :: c2 :: r => utf8Cont c1 && utf8Cont c2 && utf8Valid r
      | _ => false
    else if b = 0xED then
      match rest with
      | c1 :: c2 :: r => (0x80 ≤ c1 && c1 ≤ 0x9F) && utf8Cont c2 && utf8Valid r
      | _ => false
    else if b = 0xF0 then
      match rest with
      | c1 :: c2 :: c3 :: r =>
        (0x90 ≤ c1 && c1 ≤ 0xBF) && utf8Cont c2 && utf8Cont c3 && utf8Valid r
      | _ => false
    else if 0xF1 ≤ b && b ≤ 0xF3 then
      match rest with
      | c1 :: c2 :: c3 :: r => utf8Cont c1 && utf8Cont c2 && utf8Cont c3 && utf8Valid r
      | _ => false
    else if b = 0xF4 then
      match rest with
      | c1 :: c2 :: c3 :: r =>
        (0x80 ≤ c1 && c1 ≤ 0x8F) && utf8Cont c2 && utf8Cont c3 && utf8Valid r
      | _ => false
    else false

/-- What `file_writer_new` does to the caller's output handle slot: left
untouched, reset to the null sentinel, or set to a fresh handle. -/
inductive SlotEffect where
  | untouched
  | setNull
  | setHandle (fw : FileWriter)
deriving DecidableEq

/-- Embedding of `file_writer_new`. The path argument is `none` for a null
pointer, otherwise the C string's bytes; `handleNull` says whether the
output slot pointer is null; `openFn` is the oracle for the one OS open call
the function makes (instantiate with `osOpen` for filesystem-level claims).
Mirrors the source order: null-path check, null-slot check, slot reset to
null, UTF-8 conversion, open, buffer allocation via `BufWriter::new`. -/
def file_writer_new
    (openFn : Fs → List Nat → FileWriterMode → Except IoErrorKind (Fs × List Nat))
    (fs : Fs) (path : Option (List Nat)) (handleNull : Bool) (mode : FileWriterMode) :
    FileWriterError × SlotEffect × Fs :=
  match path with
  | none => (.InvalidPath, .untouched, fs)
  | some pbytes =>
    if handleNull then (.InvalidHandle, .untouched, fs)
    else if utf8Valid pbytes then
      match openFn fs pbytes mode with
      | .error _ => (.FileOpenError, .setNull, fs)
      | .ok (fs', content) => (.Success, .setHandle ⟨some (BufWriter.new content)⟩, fs')
    else (.InvalidPath, .setNull, fs)

/-- Embedding of `file_writer_set_buffer_size`: zero size is rejected before
the handle is examined; otherwise the writer is taken out of the handle,
`into_inner` flushes and returns the file, and a new writer of the requested
capacity wraps it. If the flush inside `into_inner` fails, the error value
(carrying the writer and its file) is discarded, so the handle's `writer`
field stays `none` and the stream is dropped. -/
def file_writer_set_buffer_size (handle : Option FileWriter) (size : Nat) (ioOk : Bool) :
    FileWriterError × Option FileWriter :=
  if size = 0 then (.InvalidData, handle)
  else
    match handle with
    | none => (.InvalidHandle, none)
    | some fw =>
      match fw.writer with
      | none => (.InvalidHandle, some fw)
      | some w =>
        match w.intoInner ioOk with
        | .ok file => (.Success, some ⟨some (BufWriter.withCapacity size file)⟩)
        | .error _ => (.FileCloseError, some ⟨none⟩)

/-- Embedding of `file_writer_write_raw`: the null-data check
(`size > 0 && data.is_null()`) precedes the handle check; the slice handed
to `write_all` is the first `size` bytes at the data pointer. -/
def file_writer_write_raw (handle : Option FileWriter) (data : Option (List Nat))
    (size : Nat) (ioOk : Bool) : FileWriterError × Option FileWriter :=
  if 0 < size ∧ data = none then (.InvalidData, handle)
  else
    match get_writer_mut handle with
    | .error e => (e, handle)
    | .ok w =>
      match w.writeAll ((data.getD []).take size) ioOk with
      | .ok w' => (.Success, some ⟨some w'⟩)
      | .error we => (.FileWriteError, some ⟨some we⟩)

/-- Embedding of `file_writer_flush`: forces the buffered bytes to the file;
an underlying failure is reported as `FileWriteError` and leaves the writer
(buffer retained) in the handle. -/
def file_writer_flush (handle : Option FileWriter) (ioOk : Bool) :
    FileWriterError × Option FileWriter :=
  match get_writer_mut handle with
  | .error e => (e, handle)
  | .ok w =>
    match w.flushBuf ioOk with
    | .ok w' => (.Success, some ⟨some w'⟩)
    | .error we => (.FileWriteError, some ⟨some we⟩)

/-- Large-write bypass threshold of the interface: 1 MiB. -/
def largeWriteThreshold : Nat := 1048576

/-- Modelled from the spec: `file_writer_write_large` is referenced by the
benchmark harness but its definition is not under `src/`. Per the spec, a
payload strictly larger than the 1 MiB threshold first has the buffered
bytes flushed and drained, then is written directly to the underlying
stream, bypassing the buffer; a payload at or below the threshold is
handled exactly like `file_writer_write_raw`. -/
def file_writer_write_large (handle : Option FileWriter) (data : Option (List Nat))
    (size : Nat) (ioOk : Bool) : FileWriterError × Option FileWriter :=
  if largeWriteThreshold < size then
    if 0 < size ∧ data = none then (.InvalidData, handle)
    else
      match get_writer_mut handle with
      | .error e => (e, handle)
      | .ok w =>
        match w.flushBuf ioOk with
        | .error we => (.FileWriteError, some ⟨some we⟩)
        | .ok w' =>
          if ioOk then
            (.Success, some ⟨some ⟨w'.capacity, w'.buf, w'.inner ++ (data.getD []).take size⟩⟩)
          else (.FileWriteError, some ⟨some w'⟩)
  else file_writer_write_raw handle data size ioOk

/-- Buffer descriptor of the batch-write interface: a data pointer and a
length, as the benchmark harness declares `BufferDescriptor`. -/
structure BufferDescriptor where
  data : Option (List Nat)
  size : Nat
deriving DecidableEq

/-- Modelled from the spec: the descriptor loop of `file_writer_write_batch`
(absent from `src/`). Descriptors are processed in sequence order; an empty
descriptor is skipped; a null data pointer with nonzero size is
`InvalidData`; the first failing write stops the loop with `FileWriteError`
and the writer keeps everything already written. `ioOk i` is the I/O oracle
for descriptor `i`. -/
def batchGo (w : BufWriter) (ds : List BufferDescriptor) (ioOk : Nat → Bool) (i : Nat) :
    FileWriterError × BufWriter :=
  match ds with
  | [] => (.Success, w)
  | d :: rest =>
    if d.size = 0 then batchGo w rest ioOk (i + 1)
    else if d.data = none then (.InvalidData, w)
    else
      match w.writeAll ((d.data.getD []).take d.size) (ioOk i) with
      | .ok w' => batchGo w' rest ioOk (i + 1)
      | .error we => (.FileWriteError, we)

/-- Slices contributed by the descriptors that are not skipped (nonzero
size), in sequence order. -/
def batchSlices (ds : List BufferDescriptor) : List (List Nat) :=
  ds.filterMap (fun d => if d.size = 0 then none else some ((d.data.getD []).take d.size))

/-- Modelled from the spec: `file_writer_write_batch` (absent from `src/`,
referenced by the benchmark harness). A null descriptor array with nonzero
count is `InvalidData`; a zero count is trivially `Success`; otherwise the
first `count` descriptors are written through the buffered path in order. -/
def file_writer_write_batch (handle : Option FileWriter)
    (descs : Option (List BufferDescriptor)) (count : Nat) (ioOk : Nat → Bool) :
    FileWriterError × Option FileWriter :=
  if 0 < count ∧ descs = none then (.InvalidData, handle)
  else
    match get_writer_mut handle with
    | .error e => (e, handle)
    | .ok w =>
      let r := batchGo w ((descs.getD []).take count) ioOk 0
      (r.1, some ⟨some r.2⟩)

/-! ## Helper lemmas about the buffered-writer model -/

theorem flushBuf_ok_eq {w w' : BufWriter} {io : Bool}
    (h : w.flushBuf io = .ok w') : w' = ⟨w.capacity, [], w.inner ++ w.buf⟩ := by
  unfold BufWriter.flushBuf at h
  split at h
  next hb =>
    simp only [Except.ok.injEq] at h
    subst h
    cases w with
    | mk c b i => simp_all
  next hb =>
    split at h
    · simp only [Except.ok.injEq] at h
      exact h.symm
    · simp at h

theorem flushBuf_error_eq {w we : BufWriter} {io : Bool}
    (h : w.flushBuf io = .error we) : we = w ∧ w.buf ≠ [] ∧ io = false := by
  unfold BufWriter.flushBuf at h
  split at h
  · simp at h
  next hb =>
    split at h
    · simp at h
    next hio =>
      simp only [Except.error.injEq] at h
      exact ⟨h.symm, hb, by simpa using hio⟩

theorem flushBuf_true_ok (w : BufWriter) :
    w.flushBuf true = .ok ⟨w.capacity, [], w.inner ++ w.buf⟩ := by
  unfold BufWriter.flushBuf
  split
  next hb =>
    cases w with
    | mk c b i => simp_all
  next hb => rfl

theorem writeAll_ok_allBytes {w w' : BufWriter} {data : List Nat} {io : Bool}
    (h : w.writeAll data io = .ok w') :
    w'.allBytes = w.allBytes ++ data ∧ w'.capacity = w.capacity := by
  unfold BufWriter.writeAll at h
  split at h
  · split at h
    next we heq => simp at h
    next wf heq =>
      have hwf := flushBuf_ok_eq heq
      subst hwf
      split at h
      · split at h
        · simp only [Except.ok.injEq] at h
          subst h
          simp [BufWriter.allBytes, List.append_assoc]
        · simp at h
      · simp only [Except.ok.injEq] at h
        subst h
        simp [BufWriter.allBytes, List.append_assoc]
  · simp only [Except.ok.injEq] at h
    subst h
    simp [BufWriter.allBytes, List.append_assoc]

theorem writeAll_error_allBytes {w we : BufWriter} {data : List Nat} {io : Bool}
    (h : w.writeAll data io = .error we) :
    we.allBytes = w.allBytes ∧ we.capacity = w.capacity := by
  unfold BufWriter.writeAll at h
  split at h
  · split at h
    next we2 heq =>
      simp only [Except.error.injEq] at h
      subst h
      have h2 := flushBuf_error_eq heq
      simp [h2.1]
    next wf heq =>
      have hwf := flushBuf_ok_eq heq
      subst hwf
      split at h
      · split at h
        · simp at h
        · simp only [Except.error.injEq] at h
          subst h
          simp [BufWriter.allBytes]
      · simp at h
  · simp at h

theorem writeAll_true_isOk (w : BufWriter) (data : List Nat) :
    ∃ w', w.writeAll data true = .ok w' := by
  unfold BufWriter.writeAll
  split
  · simp only [flushBuf_true_ok]
    split
    · exact ⟨_, if_pos trivial⟩
    · exact ⟨_, rfl⟩
  · exact ⟨_, rfl⟩

theorem batchGo_append_success {pre : List BufferDescriptor} {w wp : BufWriter}
    {ioOk : Nat → Bool} {i : Nat}
    (h : batchGo w pre ioOk i = (.Success, wp)) (ds2 : List BufferDescriptor) :
    batchGo w (pre ++ ds2) ioOk i = batchGo wp ds2 ioOk (i + pre.length) := by
  induction pre generalizing w i with
  | nil =>
    simp only [batchGo, Prod.mk.injEq, true_and] at h
    subst h
    simp
  | cons d rest ih =>
    rw [List.cons_append]
    simp only [batchGo] at h ⊢
    by_cases hs : d.size = 0
    · rw [if_pos hs] at h ⊢
      rw [ih h]
      have hl : i + 1 + rest.length = i + (d :: rest).length := by
        simp only [List.length_cons]
        omega
      rw [hl]
    · rw [if_neg hs] at h ⊢
      by_cases hd : d.data = none
      · rw [if_pos hd] at h
        simp at h
      · rw [if_neg hd] at h ⊢
        cases hw : w.writeAll ((d.data.getD []).take d.size) (ioOk i) with
        | ok w' =>
          simp only [hw] at h ⊢
          rw [ih h]
          have hl : i + 1 + rest.length = i + (d :: rest).length := by
            simp only [List.length_cons]
            omega
          rw [hl]
        | error we =>
          simp only [hw] at h
          simp at h

theorem batchGo_success_allBytes {ds : List BufferDescriptor} {w w1 : BufWriter}
    {ioOk : Nat → Bool} {i : Nat}
    (h : batchGo w ds ioOk i = (.Success, w1)) :
    w1.allBytes = w.allBytes ++ (batchSlices ds).flatten := by
  induction ds generalizing w i with
  | nil =>
    simp only [batchGo, Prod.mk.injEq, true_and] at h
    subst h
    simp [batchSlices]
  | cons d rest ih =>
    simp only [batchGo] at h
    by_cases hs : d.size = 0
    · rw [if_pos hs] at h
      rw [ih h]
      simp [batchSlices, List.filterMap_cons, hs]
    · rw [if_neg hs] at h
      by_cases hd : d.data = none
      · rw [if_pos hd] at h
        simp at h
      · rw [if_neg hd] at h
        cases hw : w.writeAll ((d.data.getD []).take d.size) (ioOk i) with
        | ok w' =>
          simp only [hw] at h
          rw [ih h, (writeAll_ok_allBytes hw).1]
          simp [batchSlices, List.filterMap_cons, hs, List.append_assoc]
        | error we =>
          simp only [hw] at h
          simp at h

/-! ## Claim C8 -/

/-- C8: for every handle, calling `file_writer_set_buffer_size` with
capacity zero returns `InvalidData` and leaves the handle's buffer, stream
and validity completely unchanged. -/
theorem C8_resize_zero_rejected (handle : Option FileWriter) (io : Bool) :
    file_writer_set_buffer_size handle 0 io = (.InvalidData, handle) := rfl

/-! ## Claim C10 -/

/-- C10: the null-data check in `file_writer_write_raw` precedes the handle
check, so a null data pointer with nonzero size yields `InvalidData` for
every handle pointer, including a null or streamless one; likewise
`file_writer_set_buffer_size` checks the size before the handle, so size
zero yields `InvalidData` even for a null handle. -/
theorem C10_validation_order :
    (∀ (handle : Option FileWriter) (size : Nat) (io : Bool), 0 < size →
      file_writer_write_raw handle none size io = (.InvalidData, handle)) ∧
    (∀ io : Bool, file_writer_set_buffer_size none 0 io = (.InvalidData, none)) := by
  constructor
  · intro handle size io hs
    unfold file_writer_write_raw
    rw [if_pos ⟨hs, rfl⟩]
  · intro io
    rfl

/-- C10 witness: concrete instances at a null handle and at a streamless
handle. -/
theorem C10_validation_order_witness :
    file_writer_write_raw none none 1 true = (.InvalidData, none) ∧
    file_writer_write_raw (some ⟨none⟩) none 1 true = (.InvalidData, some ⟨none⟩) ∧
    file_writer_set_buffer_size none 0 true = (.InvalidData, none) :=
  ⟨C10_validation_order.1 none 1 true (by decide),
   C10_validation_order.1 (some ⟨none⟩) 1 true (by decide),
   C10_validation_order.2 true⟩

/-! ## Claim C2 -/

/-- C2 counterexample: at a concrete handle whose flush-and-drain step
fails, `file_writer_set_buffer_size` does return `FileCloseError`, but the
handle does NOT retain its stream resource — the writer slot is left empty,
refuting the retention part of the claim. -/
theorem C2_stream_not_retained_cex :
    (file_writer_set_buffer_size (some ⟨some ⟨8192, [1], []⟩⟩) 16 false).1 =
      .FileCloseError ∧
    hasStream (file_writer_set_buffer_size (some ⟨some ⟨8192, [1], []⟩⟩) 16 false).2 =
      false := by
  decide

/-- C2 (amended): if the flush-and-drain step of
`file_writer_set_buffer_size` fails, the operation returns `FileCloseError`
and the handle is marked invalid by leaving its writer slot empty — the
stream is dropped with the discarded error, not retained — and every
subsequent write or flush call on that handle is rejected with
`InvalidHandle`. -/
theorem C2_resize_failure_invalidates (w : BufWriter) (size : Nat)
    (hsz : size ≠ 0) (hbuf : w.buf ≠ []) :
    file_writer_set_buffer_size (some ⟨some w⟩) size false =
      (.FileCloseError, some ⟨none⟩) ∧
    (∀ (bs : List Nat) (sz : Nat) (io : Bool),
      file_writer_write_raw (some ⟨none⟩) (some bs) sz io =
        (.InvalidHandle, some ⟨none⟩)) ∧
    (∀ io : Bool,
      file_writer_flush (some ⟨none⟩) io = (.InvalidHandle, some ⟨none⟩)) := by
  refine ⟨?_, ?_, ?_⟩
  · have hfb : w.flushBuf false = .error w := by
      unfold BufWriter.flushBuf
      rw [if_neg hbuf, if_neg (by simp)]
    have hii : w.intoInner false = .error w := by
      unfold BufWriter.intoInner
      rw [hfb]
    unfold file_writer_set_buffer_size
    rw [if_neg hsz]
    simp only [hii]
  · intro bs sz io
    unfold file_writer_write_raw
    rw [if_neg (by simp)]
    rfl
  · intro io
    rfl

/-- C2 witness: the amended behavior at a concrete handle. -/
theorem C2_resize_failure_invalidates_witness :
    file_writer_set_buffer_size (some ⟨some ⟨4, [1], []⟩⟩) 2 false =
      (.FileCloseError, some ⟨none⟩) ∧
    file_writer_write_raw (some ⟨none⟩) (some [7]) 1 true =
      (.InvalidHandle, some ⟨none⟩) ∧
    file_writer_flush (some ⟨none⟩) true = (.InvalidHandle, some ⟨none⟩) :=
  ⟨(C2_resize_failure_invalidates ⟨4, [1], []⟩ 2 (by decide) (by decide)).1,
   (C2_resize_failure_invalidates ⟨4, [1], []⟩ 2 (by decide) (by decide)).2.1 [7] 1 true,
   (C2_resize_failure_invalidates ⟨4, [1], []⟩ 2 (by decide) (by decide)).2.2 true⟩

/-! ## Claim C3 -/

/-- C3 counterexample: a concrete successful open allocates the buffer via
`BufWriter::new`, whose capacity is 8192 bytes, not the claimed 65536. -/
theorem C3_default_capacity_cex :
    file_writer_new osOpen ⟨[[]], []⟩ (some [102]) false .Write =
      (.Success, .setHandle ⟨some ⟨8192, [], []⟩⟩, ⟨[[]], [([102], [])]⟩) ∧
    (8192 : Nat) ≠ 65536 := by
  decide

/-- C3 (amended): for every successful open, the handle's buffer is
allocated by `BufWriter::new` with Rust's default capacity of 8192 bytes
(8 KiB), not 65536. -/
theorem C3_default_capacity_8192
    (openFn : Fs → List Nat → FileWriterMode → Except IoErrorKind (Fs × List Nat))
    (fs fs' : Fs) (p content : List Nat) (mode : FileWriterMode)
    (hutf : utf8Valid p = true)
    (hopen : openFn fs p mode = .ok (fs', content)) :
    file_writer_new openFn fs (some p) false mode =
      (.Success, .setHandle ⟨some (BufWriter.new content)⟩, fs') ∧
    (BufWriter.new content).capacity = 8192 := by
  constructor
  · simp [file_writer_new, hutf, hopen]
  · rfl

/-- C3 witness: the amended behavior at a concrete open. -/
theorem C3_default_capacity_8192_witness :
    file_writer_new osOpen ⟨[[]], []⟩ (some [102]) false .Append =
      (.Success, .setHandle ⟨some (BufWriter.new [])⟩, ⟨[[]], [([102], [])]⟩) ∧
    (BufWriter.new []).capacity = 8192 :=
  C3_default_capacity_8192 osOpen ⟨[[]], []⟩ ⟨[[]], [([102], [])]⟩ [102] [] .Append
    (by decide) rfl

/-! ## Claim C4 -/

/-- C4 counterexample: opening `a/b` while directory `a` does not exist
fails with `FileOpenError` and creates no directories — `file_writer_new`
has no directory-creation step, refuting the claim. -/
theorem C4_no_dir_creation_cex :
    parentOf [97, 47, 98] ∉ (⟨[[]], []⟩ : Fs).dirs ∧
    file_writer_new osOpen ⟨[[]], []⟩ (some [97, 47, 98]) false .Write =
      (.FileOpenError, .setNull, ⟨[[]], []⟩) := by
  decide

/-- C4 (amended): `file_writer_new` performs no directory creation; for
every path whose parent directory hierarchy does not exist, the OS open
fails and the call reports `FileOpenError`, leaving the filesystem
(directories included) unchanged and the output slot reset to null. -/
theorem C4_missing_parent_open_fails (fs : Fs) (p : List Nat)
    (mode : FileWriterMode) (hutf : utf8Valid p = true)
    (hpar : parentOf p ∉ fs.dirs) :
    file_writer_new osOpen fs (some p) false mode =
      (.FileOpenError, .setNull, fs) := by
  have hopen : osOpen fs p mode = .error .notFound := by
    unfold osOpen
    by_cases hp : p = []
    · rw [if_pos hp]
    · rw [if_neg hp, if_neg (by simpa using hpar)]
  simp [file_writer_new, hutf, hopen]

/-- C4 witness: the amended behavior at the path `a/b/c` with no existing
directories. -/
theorem C4_missing_parent_open_fails_witness :
    file_writer_new osOpen ⟨[[]], []⟩ (some [97, 47, 98, 47, 99]) false .Write =
      (.FileOpenError, .setNull, ⟨[[]], []⟩) :=
  C4_missing_parent_open_fails ⟨[[]], []⟩ [97, 47, 98, 47, 99] .Write
    (by decide) (by decide)

/-! ## Claim C5 -/

/-- C5 counterexample: the empty path is not rejected as `InvalidPath`; it
reaches the OS open, which fails, so the call returns `FileOpenError`. -/
theorem C5_empty_path_cex :
    file_writer_new osOpen ⟨[[]], []⟩ (some []) false .Write =
      (.FileOpenError, .setNull, ⟨[[]], []⟩) ∧
    FileWriterError.FileOpenError ≠ .InvalidPath := by
  decide

/-- C5 (amended): an empty path is not specially detected; it flows to the
OS open, which fails, so the call returns `FileOpenError` (not
`InvalidPath`), and the output handle slot is reset to the null sentinel
with no handle value stored. -/
theorem C5_empty_path_openerror (fs : Fs) (mode : FileWriterMode) :
    file_writer_new osOpen fs (some []) false mode =
      (.FileOpenError, .setNull, fs) := by
  have hopen : osOpen fs [] mode = .error .notFound := by
    unfold osOpen
    rw [if_pos rfl]
  have hutf : utf8Valid [] = true := rfl
  simp [file_writer_new, hutf, hopen]

/-! ## Claim C7 -/

/-- C7 counterexample: an open failure of kind `interrupted` (neither
permission-denied nor not-found) is reported by `file_writer_new` as
`FileOpenError`, not as the claimed `IoError`, even though the `From`
conversion would map it to `IoError`. -/
theorem C7_open_error_uniform_cex :
    (file_writer_new (fun _ _ _ => .error .interrupted) ⟨[[]], []⟩
        (some [102]) false .Write).1 = .FileOpenError ∧
    FileWriterError.FileOpenError ≠ .IoError ∧
    errorFromIoKind .interrupted = .IoError := by
  decide

/-- C7 (amended): `file_writer_new` reports every failing open as
`FileOpenError`, regardless of the error kind; the `From` conversion
`errorFromIoKind` does map permission-denied and not-found to
`FileOpenError` and every other kind to `IoError`, but the open path never
consults it. -/
theorem C7_open_error_mapping :
    (∀ (openFn : Fs → List Nat → FileWriterMode → Except IoErrorKind (Fs × List Nat))
       (fs : Fs) (p : List Nat) (mode : FileWriterMode) (k : IoErrorKind),
      utf8Valid p = true → openFn fs p mode = .error k →
      (file_writer_new openFn fs (some p) false mode).1 = .FileOpenError) ∧
    errorFromIoKind .permissionDenied = .FileOpenError ∧
    errorFromIoKind .notFound = .FileOpenError ∧
    (∀ k : IoErrorKind, k ≠ .permissionDenied → k ≠ .notFound →
      errorFromIoKind k = .IoError) := by
  refine ⟨?_, rfl, rfl, ?_⟩
  · intro openFn fs p mode k hutf hopen
    simp [file_writer_new, hutf, hopen]
  · intro k h1 h2
    cases k <;> simp_all [errorFromIoKind]

/-- C7 witness: the amended mapping at a timed-out open failure. -/
theorem C7_open_error_mapping_witness :
    (file_writer_new (fun _ _ _ => .error .timedOut) ⟨[[]], []⟩
        (some [102]) false .Write).1 = .FileOpenError ∧
    errorFromIoKind .timedOut = .IoError :=
  ⟨C7_open_error_mapping.1 (fun _ _ _ => .error .timedOut) ⟨[[]], []⟩ [102]
      .Write .timedOut (by decide) rfl,
   C7_open_error_mapping.2.2.2 .timedOut (by decide) (by decide)⟩

/-! ## Claim C9 -/

/-- C9: if the underlying flush fails, `file_writer_flush` returns
`FileWriteError` and does not invalidate the handle: the writer stays in
place with its buffer retained, a retried flush succeeds, and a subsequent
write on the same handle is still accepted. -/
theorem C9_flush_failure_retryable (w : BufWriter) (hbuf : w.buf ≠ []) :
    file_writer_flush (some ⟨some w⟩) false = (.FileWriteError, some ⟨some w⟩) ∧
    file_writer_flush (some ⟨some w⟩) true =
      (.Success, some ⟨some ⟨w.capacity, [], w.inner ++ w.buf⟩⟩) ∧
    (∀ (bs : List Nat) (sz : Nat),
      (file_writer_write_raw (some ⟨some w⟩) (some bs) sz true).1 = .Success) := by
  refine ⟨?_, ?_, ?_⟩
  · have hfb : w.flushBuf false = .error w := by
      unfold BufWriter.flushBuf
      rw [if_neg hbuf, if_neg (by simp)]
    simp [file_writer_flush, get_writer_mut, hfb]
  · simp [file_writer_flush, get_writer_mut, flushBuf_true_ok w]
  · intro bs sz
    obtain ⟨w', hw⟩ := writeAll_true_isOk w (bs.take sz)
    simp [file_writer_write_raw, get_writer_mut, hw]

/-- C9 witness: the retry behavior at a concrete handle with one buffered
byte. -/
theorem C9_flush_failure_retryable_witness :
    file_writer_flush (some ⟨some ⟨8192, [5], []⟩⟩) false =
      (.FileWriteError, some ⟨some ⟨8192, [5], []⟩⟩) ∧
    file_writer_flush (some ⟨some ⟨8192, [5], []⟩⟩) true =
      (.Success, some ⟨some ⟨8192, [], [5]⟩⟩) ∧
    (file_writer_write_raw (some ⟨some ⟨8192, [5], []⟩⟩) (some [6]) 1 true).1 =
      .Success :=
  ⟨(C9_flush_failure_retryable ⟨8192, [5], []⟩ (by decide)).1,
   (C9_flush_failure_retryable ⟨8192, [5], []⟩ (by decide)).2.1,
   (C9_flush_failure_retryable ⟨8192, [5], []⟩ (by decide)).2.2 [6] 1⟩

/-! ## Claim C1 -/

/-- C1: `file_writer_write_large` (modelled from the spec) first flushes and
drains the buffered bytes and then writes the payload directly to the
stream, bypassing the internal buffer, whenever the payload exceeds
1,048,576 bytes; for a payload at or below the threshold it behaves exactly
like `file_writer_write_raw`. -/
theorem C1_write_large_threshold :
    (∀ (w : BufWriter) (bs : List Nat) (size : Nat), largeWriteThreshold < size →
      file_writer_write_large (some ⟨some w⟩) (some bs) size true =
        (.Success, some ⟨some ⟨w.capacity, [], w.inner ++ w.buf ++ bs.take size⟩⟩)) ∧
    (∀ (handle : Option FileWriter) (data : Option (List Nat)) (size : Nat) (io : Bool),
      size ≤ largeWriteThreshold →
      file_writer_write_large handle data size io =
        file_writer_write_raw handle data size io) := by
  constructor
  · intro w bs size hsz
    unfold file_writer_write_large
    rw [if_pos hsz, if_neg (by simp)]
    simp [get_writer_mut, flushBuf_true_ok w, List.append_assoc]
  · intro handle data size io hsz
    unfold file_writer_write_large
    rw [if_neg (Nat.not_lt.mpr hsz)]

/-- C1 witness: the bypass at a payload of 1,048,577 bytes declared size and
the raw-write equality below the threshold. -/
theorem C1_write_large_threshold_witness :
    file_writer_write_large (some ⟨some ⟨8192, [1], [2]⟩⟩) (some [3]) 1048577 true =
      (.Success, some ⟨some ⟨8192, [], [2, 1, 3]⟩⟩) ∧
    file_writer_write_large (some ⟨some ⟨8192, [1], [2]⟩⟩) (some [3]) 5 true =
      file_writer_write_raw (some ⟨some ⟨8192, [1], [2]⟩⟩) (some [3]) 5 true :=
  ⟨C1_write_large_threshold.1 ⟨8192, [1], [2]⟩ [3] 1048577 (by decide),
   C1_write_large_threshold.2 (some ⟨some ⟨8192, [1], [2]⟩⟩) (some [3]) 5 true
     (by decide)⟩

/-! ## Claim C6 -/

/-- C6: `file_writer_write_batch` (modelled from the spec) writes the
descriptors in sequence order through the buffered path, skips every
descriptor of size zero, and stops at the first descriptor whose write
fails, returning `FileWriteError` while keeping the bytes of all earlier
descriptors already written (no rollback). -/
theorem C6_write_batch_order :
    (∀ (w : BufWriter) (d : BufferDescriptor) (rest : List BufferDescriptor)
       (ioOk : Nat → Bool) (i : Nat), d.size = 0 →
      batchGo w (d :: rest) ioOk i = batchGo w rest ioOk (i + 1)) ∧
    (∀ (w w1 : BufWriter) (ds : List BufferDescriptor) (ioOk : Nat → Bool),
      batchGo w ds ioOk 0 = (.Success, w1) →
      w1.allBytes = w.allBytes ++ (batchSlices ds).flatten) ∧
    (∀ (w wp we : BufWriter) (pre post : List BufferDescriptor)
       (d : BufferDescriptor) (bs : List Nat) (ioOk : Nat → Bool),
      batchGo w pre ioOk 0 = (.Success, wp) →
      d.size ≠ 0 → d.data = some bs →
      wp.writeAll (bs.take d.size) (ioOk pre.length) = .error we →
      batchGo w (pre ++ d :: post) ioOk 0 = (.FileWriteError, we) ∧
      we.allBytes = wp.allBytes) ∧
    (∀ (w : BufWriter) (ds : List BufferDescriptor) (ioOk : Nat → Bool),
      file_writer_write_batch (some ⟨some w⟩) (some ds) ds.length ioOk =
        ((batchGo w ds ioOk 0).1, some ⟨some (batchGo w ds ioOk 0).2⟩)) := by
  refine ⟨?_, ?_, ?_, ?_⟩
  · intro w d rest ioOk i hs
    simp only [batchGo]
    rw [if_pos hs]
  · intro w w1 ds ioOk h
    exact batchGo_success_allBytes h
  · intro w wp we pre post d bs ioOk hpre hs hd hw
    refine ⟨?_, (writeAll_error_allBytes hw).1⟩
    rw [batchGo_append_success hpre (d :: post)]
    simp only [batchGo]
    rw [if_neg hs, if_neg (by simp [hd])]
    simp only [hd, Option.getD_some, Nat.zero_add, hw]
  · intro w ds ioOk
    unfold file_writer_write_batch
    rw [if_neg (by simp)]
    simp [get_writer_mut, List.take_length]

/-- C6 witness: a skipped empty descriptor, an in-order success, a first
failure that keeps the first descriptor's bytes, and the entry point. -/
theorem C6_write_batch_order_witness :
    batchGo ⟨4, [], []⟩ (⟨some [9], 0⟩ :: [⟨some [1, 2], 2⟩]) (fun _ => true) 0 =
      batchGo ⟨4, [], []⟩ [⟨some [1, 2], 2⟩] (fun _ => true) 1 ∧
    (⟨4, [1, 2], []⟩ : BufWriter).allBytes =
      (⟨4, [], []⟩ : BufWriter).allBytes ++
        (batchSlices [⟨some [1, 2], 2⟩]).flatten ∧
    (batchGo ⟨4, [], []⟩
        ([⟨some [1, 2], 2⟩] ++ ⟨some [3, 4, 5, 6, 7], 5⟩ :: [])
        (fun i => i == 0) 0 =
      (.FileWriteError, ⟨4, [1, 2], []⟩) ∧
     (⟨4, [1, 2], []⟩ : BufWriter).allBytes =
       (⟨4, [1, 2], []⟩ : BufWriter).allBytes) ∧
    file_writer_write_batch (some ⟨some ⟨4, [], []⟩⟩) (some [⟨some [1, 2], 2⟩]) 1
        (fun _ => true) =
      ((batchGo ⟨4, [], []⟩ [⟨some [1, 2], 2⟩] (fun _ => true) 0).1,
       some ⟨some (batchGo ⟨4, [], []⟩ [⟨some [1, 2], 2⟩] (fun _ => true) 0).2⟩) :=
  ⟨C6_write_batch_order.1 ⟨4, [], []⟩ ⟨some [9], 0⟩ [⟨some [1, 2], 2⟩]
     (fun _ => true) 0 rfl,
   C6_write_batch_order.2.1 ⟨4, [], []⟩ ⟨4, [1, 2], []⟩ [⟨some [1, 2], 2⟩]
     (fun _ => true) rfl,
   C6_write_batch_order.2.2.1 ⟨4, [], []⟩ ⟨4, [1, 2], []⟩ ⟨4, [1, 2], []⟩
     [⟨some [1, 2], 2⟩] [] ⟨some [3, 4, 5, 6, 7], 5⟩ [3, 4, 5, 6, 7]
     (fun i => i == 0) rfl (by decide) rfl rfl,
   C6_write_batch_order.2.2.2 ⟨4, [], []⟩ [⟨some [1, 2], 2⟩] (fun _ => true)⟩
